import Mathlib

/-!
Verification development for the BrainDriveChat plugin lifecycle manager
(src/lifecycle_manager.py).

The Python module is embedded shallowly:

* The two relational tables (`plugin`, `module`) become lists of rows; a
  database session is a `DBState` holding the committed snapshot, the
  current (in-transaction) view, an id sequence, a fault schedule that
  models which `db.execute`/`db.commit` calls raise, and a trace of the
  SQL statements that actually executed.
* Every `await db.execute(...)` consumes one entry of the fault schedule;
  a `true` entry makes the call raise (modelling any database exception),
  a `false` entry (or an exhausted schedule) lets it succeed.
* `await db.commit()` publishes the current view; `await db.rollback()`
  restores the committed snapshot.
* The filesystem seen by the validator / health check is a `PluginFS`:
  a finite map from the paths the Python code actually consults to file
  observations (byte size and the outcome of `json.load`).
* The recursive copy loop is embedded over an explicit traversal list of
  source items (the output of `source_dir.rglob('*')` in traversal
  order), each carrying a flag saying whether its `shutil.copy2`/`mkdir`
  raises, which models the per-file `try/except` in the Python code.
-/

/-- A row of the `plugin` table (the columns the lifecycle manager reads
back or that the claims mention; the remaining columns are plain data
copied from the static descriptor and never inspected). -/
structure PluginRow where
  id : Nat
  user_id : String
  plugin_slug : String
  name : String
  version : String
  enabled : Bool
  deriving Repr, DecidableEq

/-- A row of the `module` table. -/
structure ModuleRow where
  id : Nat
  plugin_id : Nat
  name : String
  display_name : String
  deriving Repr, DecidableEq

/-- The two tables the manager touches. -/
structure Tables where
  plugins : List PluginRow
  modules : List ModuleRow
  deriving Repr, DecidableEq

/-- The SQL statements the lifecycle manager can execute, as trace events.
Only statements that actually ran (did not raise) are recorded. -/
inductive DBEvent where
  | selectCount
  | selectPlugin
  | selectModules
  | insertPlugin
  | insertModule
  | deleteModules
  | deletePlugin
  | commitTx
  | rollbackTx
  deriving Repr, DecidableEq

/-- A database session: committed snapshot, current in-transaction view,
id sequence (`RETURNING id`), fault schedule and statement trace. -/
structure DBState where
  committed : Tables
  current : Tables
  nextId : Nat
  faults : List Bool
  trace : List DBEvent
  deriving Repr, DecidableEq

/-- Outcome of one `await db.execute(...)`: either a value plus the new
session state, or a raised exception (message) plus the session state. -/
inductive ExecResult (α : Type) where
  | ok (a : α) (db : DBState)
  | err (e : String) (db : DBState)
  deriving Repr

/-- Static plugin descriptor fields used by the database code
(`self.plugin_data` in the source; the claims only inspect these). -/
structure PluginDescriptor where
  name : String
  version : String
  plugin_slug : String
  deriving Repr, DecidableEq

/-- `self.plugin_data` of `BrainDriveChatLifecycleManager`. -/
def plugin_data : PluginDescriptor :=
  { name := ("BrainDriveChat"), version := ("1.0.0"), plugin_slug := ("BrainDriveChat") }

/-- Static module descriptor fields used by the database code. -/
structure ModuleDescriptor where
  name : String
  display_name : String
  deriving Repr, DecidableEq

/-- `self.module_data`: exactly one module descriptor. -/
def module_data : List ModuleDescriptor :=
  [{ name := ("BrainDriveChat"), display_name := ("AI Chat Interface") }]

/-- One fallible database statement: consume one fault-schedule entry;
on a fault the statement raises and nothing executes, otherwise the
effect is applied to the current view, the event is recorded and the
value is read off the updated view. -/
def execStep {α : Type} (db0 : DBState) (ev : DBEvent) (eff : Tables → Tables)
    (val : Tables → α) : ExecResult α :=
  let f := db0.faults.headD false
  let db := { db0 with faults := db0.faults.tail }
  if f then ExecResult.err ("database error") db
  else
    let cur := eff db.current
    ExecResult.ok (val cur) { db with current := cur, trace := db.trace ++ [ev] }

/-- `SELECT COUNT(*) FROM plugin` (the connectivity test query). -/
def execCountPlugins (db : DBState) : ExecResult Nat :=
  execStep db DBEvent.selectCount id (fun t => t.plugins.length)

/-- `SELECT ... FROM plugin WHERE user_id = :user_id AND plugin_slug = :plugin_slug`
followed by `fetchone()` (the first matching row, if any). -/
def execSelectPlugin (user : String) (db : DBState) : ExecResult (Option PluginRow) :=
  execStep db DBEvent.selectPlugin id
    (fun t => t.plugins.find? (fun r => r.user_id == user && r.plugin_slug == plugin_data.plugin_slug))

/-- `INSERT INTO plugin (...) VALUES (...) RETURNING id`. -/
def execInsertPlugin (user : String) (db0 : DBState) : ExecResult Nat :=
  let f := db0.faults.headD false
  let db := { db0 with faults := db0.faults.tail }
  if f then ExecResult.err ("database error") db
  else
    let rid := db.nextId
    let row : PluginRow :=
      { id := rid, user_id := user, plugin_slug := plugin_data.plugin_slug,
        name := plugin_data.name, version := plugin_data.version, enabled := true }
    ExecResult.ok rid
      { db with current := { db.current with plugins := db.current.plugins ++ [row] },
                nextId := rid + 1, trace := db.trace ++ [DBEvent.insertPlugin] }

/-- `INSERT INTO module (...) VALUES (...) RETURNING id`. -/
def execInsertModule (pid : Nat) (m : ModuleDescriptor) (db0 : DBState) : ExecResult Nat :=
  let f := db0.faults.headD false
  let db := { db0 with faults := db0.faults.tail }
  if f then ExecResult.err ("database error") db
  else
    let mid := db.nextId
    let row : ModuleRow :=
      { id := mid, plugin_id := pid, name := m.name, display_name := m.display_name }
    ExecResult.ok mid
      { db with current := { db.current with modules := db.current.modules ++ [row] },
                nextId := mid + 1, trace := db.trace ++ [DBEvent.insertModule] }

/-- `SELECT id, name FROM module WHERE plugin_id = :plugin_id` with `fetchall()`. -/
def execSelectModules (pid : Nat) (db : DBState) : ExecResult (List ModuleRow) :=
  execStep db DBEvent.selectModules id (fun t => t.modules.filter (fun m => m.plugin_id == pid))

/-- `DELETE FROM module WHERE plugin_id = :plugin_id`. -/
def execDeleteModules (pid : Nat) (db : DBState) : ExecResult Unit :=
  execStep db DBEvent.deleteModules
    (fun t => { t with modules := t.modules.filter (fun m => !(m.plugin_id == pid)) })
    (fun _ => ())

/-- `DELETE FROM plugin WHERE id = :plugin_id AND user_id = :user_id`. -/
def execDeletePlugin (pid : Nat) (user : String) (db : DBState) : ExecResult Unit :=
  execStep db DBEvent.deletePlugin
    (fun t => { t with plugins := t.plugins.filter (fun r => !(r.id == pid && r.user_id == user)) })
    (fun _ => ())

/-- `await db.commit()`: consume one fault-schedule entry; on success the
current view becomes the committed snapshot. -/
def execCommit (db0 : DBState) : ExecResult Unit :=
  let f := db0.faults.headD false
  let db := { db0 with faults := db0.faults.tail }
  if f then ExecResult.err ("database error") db
  else ExecResult.ok () { db with committed := db.current, trace := db.trace ++ [DBEvent.commitTx] }

/-- `await db.rollback()`: restore the committed snapshot. -/
def doRollback (db : DBState) : DBState :=
  { db with current := db.committed, trace := db.trace ++ [DBEvent.rollbackTx] }

/-- One entry of the `modules_created` list returned by
`_create_database_records`. -/
structure ModuleCreated where
  id : Nat
  name : String
  display_name : String
  deriving Repr, DecidableEq

/-- Return value of `_create_database_records`. -/
structure CreateResult where
  success : Bool
  plugin_id : Option Nat
  modules_created : List ModuleCreated
  error : Option String
  deriving Repr, DecidableEq

/-- The `for module in module_data:` insertion loop inside
`_create_database_records`; stops at the first raising insert. -/
def insertModulesLoop (pid : Nat) (mods : List ModuleDescriptor) (acc : List ModuleCreated)
    (db : DBState) : ExecResult (List ModuleCreated) :=
  match mods with
  | [] => ExecResult.ok acc db
  | m :: rest =>
    match execInsertModule pid m db with
    | ExecResult.err e db1 => ExecResult.err e db1
    | ExecResult.ok mid db1 =>
        insertModulesLoop pid rest
          (acc ++ [{ id := mid, name := m.name, display_name := m.display_name }]) db1

/-- `_create_database_records`: insert the plugin row, then one module
row per descriptor, then commit; any raised statement lands in the
`except` block which rolls back and returns a failure dict. -/
def create_database_records (user : String) (db : DBState) : CreateResult × DBState :=
  match execInsertPlugin user db with
  | ExecResult.err e db1 =>
      ({ success := false, plugin_id := none, modules_created := [], error := some e }, doRollback db1)
  | ExecResult.ok pid db1 =>
    match insertModulesLoop pid module_data [] db1 with
    | ExecResult.err e db2 =>
        ({ success := false, plugin_id := none, modules_created := [], error := some e }, doRollback db2)
    | ExecResult.ok mods db2 =>
      match execCommit db2 with
      | ExecResult.err e db3 =>
          ({ success := false, plugin_id := none, modules_created := [], error := some e }, doRollback db3)
      | ExecResult.ok _ db3 =>
          ({ success := true, plugin_id := some pid, modules_created := mods, error := none }, db3)

/-- Return value of `_delete_database_records`. -/
structure DeleteResult where
  success : Bool
  deleted_modules : List (Nat × String)
  error : Option String
  deriving Repr, DecidableEq

/-- `_delete_database_records`: read the child modules, delete the module
rows, delete the plugin row, commit; any raised statement rolls back. -/
def delete_database_records (user : String) (pid : Nat) (db : DBState) : DeleteResult × DBState :=
  match execSelectModules pid db with
  | ExecResult.err e db1 =>
      ({ success := false, deleted_modules := [], error := some e }, doRollback db1)
  | ExecResult.ok rows db1 =>
    let modsToDelete := rows.map (fun m => (m.id, m.name))
    match execDeleteModules pid db1 with
    | ExecResult.err e db2 =>
        ({ success := false, deleted_modules := [], error := some e }, doRollback db2)
    | ExecResult.ok _ db2 =>
      match execDeletePlugin pid user db2 with
      | ExecResult.err e db3 =>
          ({ success := false, deleted_modules := [], error := some e }, doRollback db3)
      | ExecResult.ok _ db3 =>
        match execCommit db3 with
        | ExecResult.err e db4 =>
            ({ success := false, deleted_modules := [], error := some e }, doRollback db4)
        | ExecResult.ok _ db4 =>
            ({ success := true, deleted_modules := modsToDelete, error := none }, db4)

/-- Return value of `_check_existing_plugin` (the dict keys the callers
read: `exists`, `plugin_id`, `error`). -/
structure CheckResult where
  exists_ : Bool
  plugin_id : Option Nat
  error : Option String
  deriving Repr, DecidableEq

/-- `_check_existing_plugin`: run the connectivity test query, then the
scoped lookup with `fetchone()`; any raised query is caught and reported
as a not-found result carrying an `error` field. -/
def check_existing_plugin (user : String) (db : DBState) : CheckResult × DBState :=
  match execCountPlugins db with
  | ExecResult.err e db1 => ({ exists_ := false, plugin_id := none, error := some e }, db1)
  | ExecResult.ok _ db1 =>
    match execSelectPlugin user db1 with
    | ExecResult.err e db2 => ({ exists_ := false, plugin_id := none, error := some e }, db2)
    | ExecResult.ok none db2 => ({ exists_ := false, plugin_id := none, error := none }, db2)
    | ExecResult.ok (some row) db2 =>
        ({ exists_ := true, plugin_id := some row.id, error := none }, db2)

/-- Return value of `_perform_user_installation` / `install_for_user`. -/
structure InstallResult where
  success : Bool
  plugin_id : Option Nat
  plugin_slug : Option String
  plugin_name : Option String
  modules_created : List ModuleCreated
  error : Option String
  deriving Repr, DecidableEq

/-- `_perform_user_installation`: create the database records and wrap
the outcome (file copy and validation are driven by the host base class,
not by this hook). -/
def perform_user_installation (user : String) (db : DBState) : InstallResult × DBState :=
  let r := create_database_records user db
  if r.1.success then
    ({ success := true, plugin_id := r.1.plugin_id, plugin_slug := some plugin_data.plugin_slug,
       plugin_name := some plugin_data.name, modules_created := r.1.modules_created,
       error := none }, r.2)
  else
    ({ success := false, plugin_id := none, plugin_slug := none, plugin_name := none,
       modules_created := [], error := r.1.error }, r.2)

/-- Return value of `_perform_user_uninstallation` / `uninstall_for_user`. -/
structure UninstallResult where
  success : Bool
  plugin_id : Option Nat
  deleted_modules : List (Nat × String)
  error : Option String
  deriving Repr, DecidableEq

/-- `_perform_user_uninstallation`: look the plugin up; when the lookup
says it does not exist, fail with `Plugin not found for user`; otherwise
delete the database records. -/
def perform_user_uninstallation (user : String) (db : DBState) : UninstallResult × DBState :=
  let c := check_existing_plugin user db
  if c.1.exists_ then
    match c.1.plugin_id with
    | none =>
        ({ success := false, plugin_id := none, deleted_modules := [],
           error := some ("KeyError: plugin_id") }, c.2)
    | some pid =>
      let d := delete_database_records user pid c.2
      if d.1.success then
        ({ success := true, plugin_id := some pid, deleted_modules := d.1.deleted_modules,
           error := none }, d.2)
      else
        ({ success := false, plugin_id := none, deleted_modules := [], error := d.1.error }, d.2)
  else
    ({ success := false, plugin_id := none, deleted_modules := [],
       error := some ("Plugin not found for user") }, c.2)

/-- The in-memory state of a `BaseLifecycleManager` instance (the minimal
base class defined in the source file): the set of users it has
installed for, as a list. -/
structure Manager where
  active_users : List String
  deriving Repr, DecidableEq

/-- `BaseLifecycleManager.install_for_user`: reject when the user is in
`active_users`, otherwise install and on success add the user. -/
def install_for_user (mgr : Manager) (user : String) (db : DBState) :
    InstallResult × Manager × DBState :=
  if mgr.active_users.contains user then
    ({ success := false, plugin_id := none, plugin_slug := none, plugin_name := none,
       modules_created := [], error := some ("Plugin already installed for user") }, mgr, db)
  else
    let r := perform_user_installation user db
    if r.1.success then (r.1, { active_users := user :: mgr.active_users }, r.2)
    else (r.1, mgr, r.2)

/-- `BaseLifecycleManager.uninstall_for_user`: reject when the user is
not in `active_users`, otherwise uninstall and on success remove the
user. -/
def uninstall_for_user (mgr : Manager) (user : String) (db : DBState) :
    UninstallResult × Manager × DBState :=
  if mgr.active_users.contains user then
    let r := perform_user_uninstallation user db
    if r.1.success then
      (r.1, { active_users := mgr.active_users.filter (fun u => !(u == user)) }, r.2)
    else (r.1, mgr, r.2)
  else
    ({ success := false, plugin_id := none, deleted_modules := [],
       error := some ("Plugin not installed for user") }, mgr, db)

/-- A freshly constructed `BrainDriveChatLifecycleManager`: the base
constructor initialises `active_users = set()`. -/
def newManager : Manager := { active_users := [] }

/-- Module-level `install_plugin`: construct a fresh manager and call
`install_for_user` on it (the manager is then discarded). -/
def install_plugin (user : String) (db : DBState) : InstallResult × DBState :=
  let r := install_for_user newManager user db
  (r.1, r.2.2)

/-- Module-level `delete_plugin`: construct a fresh manager and call
`uninstall_for_user` on it. -/
def delete_plugin (user : String) (db : DBState) : UninstallResult × DBState :=
  let r := uninstall_for_user newManager user db
  (r.1, r.2.2)

/-- Module-level `get_plugin_status`: delegates to
`_check_existing_plugin` on a fresh manager. -/
def get_plugin_status (user : String) (db : DBState) : CheckResult × DBState :=
  check_existing_plugin user db

/-- The lookup `_check_existing_plugin` performs on the current view
(`fetchone` of the scoped SELECT), used to state claims. -/
def findPluginRow (t : Tables) (user : String) : Option PluginRow :=
  t.plugins.find? (fun r => r.user_id == user && r.plugin_slug == plugin_data.plugin_slug)

/-- The plugin row `_create_database_records` inserts for `user` when the
id sequence is at `pid`. -/
def mkPluginRow (user : String) (pid : Nat) : PluginRow :=
  { id := pid, user_id := user, plugin_slug := plugin_data.plugin_slug,
    name := plugin_data.name, version := plugin_data.version, enabled := true }

/-- The module rows inserted for plugin `pid` when the id sequence
continues at `nid`. -/
def mkModuleRowsAux (pid : Nat) : Nat → List ModuleDescriptor → List ModuleRow
  | _, [] => []
  | nid, m :: rest =>
      { id := nid, plugin_id := pid, name := m.name, display_name := m.display_name } ::
        mkModuleRowsAux pid (nid + 1) rest

/-- The module rows a successful `_create_database_records` commits. -/
def mkModuleRows (pid : Nat) : List ModuleRow := mkModuleRowsAux pid (pid + 1) module_data

/-- The `modules_created` entries for ids starting at `nid`. -/
def mkModulesCreatedAux : Nat → List ModuleDescriptor → List ModuleCreated
  | _, [] => []
  | nid, m :: rest =>
      { id := nid, name := m.name, display_name := m.display_name } ::
        mkModulesCreatedAux (nid + 1) rest

/-- The `modules_created` list a successful `_create_database_records`
returns when the plugin id was `pid`. -/
def mkModulesCreated (pid : Nat) : List ModuleCreated := mkModulesCreatedAux (pid + 1) module_data

/-- `occursBeforeFirst tr b a` holds when event `b` occurs in `tr`
strictly before the first occurrence of `a` (or anywhere, when `a` never
occurs): the violation pattern for the ordering invariants. -/
def occursBeforeFirst (tr : List DBEvent) (b a : DBEvent) : Bool :=
  (tr.takeWhile (fun e => e != a)).contains b

/-- An empty database session with no scheduled faults. -/
def db0 : DBState :=
  { committed := { plugins := [], modules := [] }, current := { plugins := [], modules := [] },
    nextId := 1, faults := [], trace := [] }

/-- Whether the fault schedule makes one of the (at most two) queries of
`_check_existing_plugin` raise. -/
def faultInCheck (fl : List Bool) : Bool :=
  match fl with
  | [] => false
  | [f] => f
  | f1 :: f2 :: _ => f1 || f2

/-- What the validator / health check observe about one file: its byte
size (`stat().st_size`) and the outcome of `json.load` on it (`none`
models a `JSONDecodeError`, `some keys` the top-level keys of the parsed
object). -/
structure FSFile where
  size : Nat
  jsonKeys : Option (List String)
  deriving Repr, DecidableEq

/-- The filesystem under the plugin directory, restricted to the
observations the Python code makes: a finite path-to-file map plus the
directory / component probes of the health check. -/
structure PluginFS where
  files : List (String × FSFile)
  assetsDirPresent : Bool
  srcDirPresent : Bool
  chatComponentFiles : Bool
  deriving Repr, DecidableEq

/-- Path lookup (`Path.exists` / `open` / `stat` all consult this map). -/
def findFile (fs : PluginFS) (p : String) : Option FSFile :=
  (fs.files.find? (fun kv => kv.1 == p)).map (fun kv => kv.2)

/-- `required_files` of `_validate_installation_impl`. -/
def required_files : List String := [("package.json"), ("dist/remoteEntry.js")]

/-- Return value of `_validate_installation_impl`. -/
structure ValidationResult where
  valid : Bool
  error : Option String
  deriving Repr, DecidableEq

/-- `_validate_installation_impl`: missing-file check, `package.json`
parse and required-field check (`name`, then `version`), then the
non-empty bundle check. Paths that vanish between the existence check
and the subsequent `open`/`stat` raise in Python and are caught (inner
`except` for `open`, outer `except` for `stat`), so those branches also
return an invalid result; in this race-free model they are unreachable. -/
def validate_installation_impl (fs : PluginFS) : ValidationResult :=
  let missing := required_files.filter (fun p => (findFile fs p).isNone)
  if !missing.isEmpty then
    { valid := false,
      error := some (("Missing required files: ") ++ String.intercalate (", ") missing) }
  else
    match findFile fs ("package.json") with
    | none => { valid := false, error := some ("Invalid or missing package.json") }
    | some pk =>
      match pk.jsonKeys with
      | none => { valid := false, error := some ("Invalid or missing package.json") }
      | some keys =>
        if !keys.contains ("name") then
          { valid := false, error := some ("package.json missing required field: name") }
        else if !keys.contains ("version") then
          { valid := false, error := some ("package.json missing required field: version") }
        else
          match findFile fs ("dist/remoteEntry.js") with
          | none => { valid := false, error := some ("stat failed") }
          | some b =>
            if b.size == 0 then
              { valid := false, error := some ("Bundle file (remoteEntry.js) is empty") }
            else { valid := true, error := none }

/-- The `health_info` dict built by `_get_plugin_health_impl`. -/
structure HealthDetails where
  bundle_exists : Bool
  bundle_size : Nat
  package_json_valid : Bool
  assets_present : Bool
  chat_components_present : Bool
  deriving Repr, DecidableEq

/-- Return value of `_get_plugin_health_impl`. -/
structure HealthResult where
  healthy : Bool
  details : HealthDetails
  deriving Repr, DecidableEq

/-- `_get_plugin_health_impl`: build the report field by field, each
defaulting to false / 0 when the probed file is absent or unparseable;
overall health is bundle presence, positive bundle size and a parseable
`package.json`. -/
def get_plugin_health_impl (fs : PluginFS) : HealthResult :=
  let bundle := findFile fs ("dist/remoteEntry.js")
  let bundleExists := bundle.isSome
  let bundleSize := match bundle with
    | some b => b.size
    | none => 0
  let pkgValid := match findFile fs ("package.json") with
    | some f => f.jsonKeys.isSome
    | none => false
  { healthy := bundleExists && decide (0 < bundleSize) && pkgValid,
    details :=
      { bundle_exists := bundleExists, bundle_size := bundleSize,
        package_json_valid := pkgValid, assets_present := fs.assetsDirPresent,
        chat_components_present := fs.srcDirPresent && fs.chatComponentFiles } }

/-- Kind of an item yielded by `source_dir.rglob('*')`. -/
inductive ItemKind where
  | file
  | dir
  deriving Repr, DecidableEq

/-- One item of the source traversal: its path parts relative to the
source directory, its kind, and whether its per-item filesystem
operation (`copy2`/`unlink`/`mkdir`) raises. -/
structure SrcItem where
  parts : List String
  kind : ItemKind
  copyFails : Bool
  deriving Repr, DecidableEq

/-- `exclude_patterns` of `_copy_plugin_files_impl`. -/
def exclude_patterns : List String :=
  [("node_modules"), ("package-lock.json"), (".git"), (".gitignore"),
   ("__pycache__"), ("*.pyc"), (".DS_Store"), ("Thumbs.db")]

/-- First loop of `should_copy`: some component of the relative path is
literally one of the exclude patterns. -/
def hasExcludedPart (parts : List String) : Bool :=
  parts.any (fun part => exclude_patterns.contains part)

/-- `path.name`: the last path component (empty for the empty path). -/
def pathName (parts : List String) : String := parts.getLastD ("")

/-- Python's `'*' in pattern`, over the character list (the core string
function is not kernel-reducible). -/
def strContainsChar (s : String) (c : Char) : Bool := s.data.contains c

/-- Python's `pattern.replace('*', '')`: drop every occurrence of the
character. -/
def strRemoveChar (s : String) (c : Char) : String :=
  String.mk (s.data.filter (fun x => !(x == c)))

/-- Python's `name.endswith(suffix)`, over the character lists. -/
def strEndsWith (s suffix : String) : Bool := suffix.data.isSuffixOf s.data

/-- Second loop of `should_copy`: the file name ends with the suffix of
a starred pattern. -/
def suffixExcluded (parts : List String) : Bool :=
  exclude_patterns.any
    (fun patt => strContainsChar patt ('*') &&
      strEndsWith (pathName parts) (strRemoveChar patt ('*')))

/-- `should_copy` of `_copy_plugin_files_impl`. -/
def should_copy (parts : List String) : Bool :=
  !hasExcludedPart parts && !suffixExcluded parts

/-- The relative path of the manager's own file: the loop skips exactly
the item whose absolute path equals `Path(__file__)`, i.e. the item at
this relative path. -/
def managerPath : List String := [("lifecycle_manager.py")]

/-- Materialise one file in the target directory (`copy2` overwrites, in
update mode after an `unlink`, so the path is present exactly once
afterwards). -/
def addFile (target : List (List String)) (p : List String) : List (List String) :=
  if target.contains p then target else target ++ [p]

/-- The `for item in source_dir.rglob('*')` loop of
`_copy_plugin_files_impl`: skip the manager's own file, skip excluded
paths, copy files (recording the relative path) and create directories;
a raising per-item operation is caught and the loop continues. -/
def copyLoop (items : List SrcItem) (copied : List (List String))
    (target : List (List String)) : List (List String) × List (List String) :=
  match items with
  | [] => (copied, target)
  | it :: rest =>
    if it.parts == managerPath then copyLoop rest copied target
    else if !should_copy it.parts then copyLoop rest copied target
    else
      match it.kind with
      | ItemKind.file =>
        if it.copyFails then copyLoop rest copied target
        else copyLoop rest (copied ++ [it.parts]) (addFile target it.parts)
      | ItemKind.dir => copyLoop rest copied target

/-- Inputs of one `_copy_plugin_files_impl` run: the traversal list, the
existence probe for `source_dir / 'lifecycle_manager.py'`, and whether
the final explicit copy of that file raises (which is outside every
per-item `try` and therefore hits the synchronizer-level `except`). -/
structure CopyConfig where
  items : List SrcItem
  managerPresent : Bool
  managerCopyFails : Bool
  deriving Repr, DecidableEq

/-- Return value of `_copy_plugin_files_impl` (first component) paired
with the set of files materialised in the target directory (second
component; on the failure path the files copied before the exception
remain on disk). -/
structure CopyResult where
  success : Bool
  copied_files : List (List String)
  error : Option String
  deriving Repr, DecidableEq

/-- `_copy_plugin_files_impl`: run the traversal loop, then explicitly
copy `lifecycle_manager.py` when it exists; a raise in that final copy
reaches the outer `except` and yields a failure dict. -/
def copy_plugin_files_impl (cfg : CopyConfig) : CopyResult × List (List String) :=
  let r := copyLoop cfg.items [] []
  if cfg.managerPresent then
    if cfg.managerCopyFails then
      ({ success := false, copied_files := [], error := some ("copy failed") }, r.2)
    else
      ({ success := true, copied_files := r.1 ++ [managerPath], error := none },
       addFile r.2 managerPath)
  else
    ({ success := true, copied_files := r.1, error := none }, r.2)

/-- The per-item contribution to `copied_files`, as a single
`filterMap`-style function: the closed form of the traversal loop. -/
def copiedEntry (it : SrcItem) : Option (List String) :=
  if it.parts == managerPath then none
  else if !should_copy it.parts then none
  else
    match it.kind with
    | ItemKind.file => if it.copyFails then none else some it.parts
    | ItemKind.dir => none

/-- Validity condition written from the spec sentence: both required
files exist, the manifest parses with `name` and `version` present, and
the bundle size is positive. -/
def validSpec (fs : PluginFS) : Bool :=
  match findFile fs ("package.json"), findFile fs ("dist/remoteEntry.js")  with
  | some pk, some b =>
    (match pk.jsonKeys with
     | some keys => keys.contains ("name") && keys.contains ("version")
     | none => false) && decide (0 < b.size)
  | _, _ => false

/-- Health condition written from the spec sentence: bundle exists, its
size is positive, and the manifest parses. -/
def healthSpec (fs : PluginFS) : Bool :=
  match findFile fs ("dist/remoteEntry.js") with
  | some b =>
      decide (0 < b.size) &&
        (match findFile fs ("package.json") with
         | some f => f.jsonKeys.isSome
         | none => false)
  | none => false

/-- A session with one scheduled database fault (the next statement
raises). -/
def dbFault1 : DBState := { db0 with faults := [true] }

/-- A manager instance that has already installed for user `u1`. -/
def mgrU1 : Manager := { active_users := [("u1")] }

/-- An empty plugin directory. -/
def fs0 : PluginFS :=
  { files := [], assetsDirPresent := false, srcDirPresent := false, chatComponentFiles := false }

/-- A fully healthy plugin directory. -/
def fsGood : PluginFS :=
  { files := [ (("package.json"), { size := 5, jsonKeys := some [("name"), ("version")] }),
               (("dist/remoteEntry.js"), { size := 10, jsonKeys := none }) ],
    assetsDirPresent := true, srcDirPresent := true, chatComponentFiles := true }

/-- A concrete traversal: a directory, the bundle, the manager's own
file, an excluded dependency-cache file, a file whose copy raises, and a
normal file. -/
def cfg0 : CopyConfig :=
  { items := [ { parts := [("dist")], kind := ItemKind.dir, copyFails := false },
               { parts := [("dist"), ("remoteEntry.js")], kind := ItemKind.file, copyFails := false },
               { parts := [("lifecycle_manager.py")], kind := ItemKind.file, copyFails := false },
               { parts := [("node_modules"), ("x.js")], kind := ItemKind.file, copyFails := false },
               { parts := [("bad.ts")], kind := ItemKind.file, copyFails := true },
               { parts := [("ok.ts")], kind := ItemKind.file, copyFails := false } ],
    managerPresent := true, managerCopyFails := false }

/-! ## Helper lemmas -/

/-- The traversal loop's `copied_files` accumulator, in closed form. -/
theorem copyLoop_copied_eq (items : List SrcItem) :
    ∀ copied target, (copyLoop items copied target).1 = copied ++ items.filterMap copiedEntry := by
  induction items with
  | nil => intro c t; simp [copyLoop]
  | cons it rest ih =>
    intro c t
    cases hm : it.parts == managerPath with
    | true => simp [copyLoop, copiedEntry, hm, ih]
    | false =>
      cases hs : should_copy it.parts with
      | false => simp [copyLoop, copiedEntry, hm, hs, ih]
      | true =>
        cases hk : it.kind with
        | dir => simp [copyLoop, copiedEntry, hm, hs, hk, ih]
        | file =>
          cases hf : it.copyFails with
          | true => simp [copyLoop, copiedEntry, hm, hs, hk, hf, ih]
          | false => simp [copyLoop, copiedEntry, hm, hs, hk, hf, ih]

/-- A path emitted by `copiedEntry` is never the manager's own file and
always passes `should_copy`. -/
theorem copiedEntry_some (it : SrcItem) (p : List String) (h : copiedEntry it = some p) :
    p ≠ managerPath ∧ should_copy p = true := by
  unfold copiedEntry at h
  cases hm : it.parts == managerPath with
  | true => simp [hm] at h
  | false =>
    cases hs : should_copy it.parts with
    | false => simp [hm, hs] at h
    | true =>
      cases hk : it.kind with
      | dir => simp [hm, hs, hk] at h
      | file =>
        cases hf : it.copyFails with
        | true => simp [hm, hs, hk, hf] at h
        | false =>
          simp [hm, hs, hk, hf] at h
          subst h
          refine ⟨?_, hs⟩
          intro heq
          rw [heq] at hm
          simp at hm

/-- Appending a different path does not change a count. -/
theorem count_append_single_ne (l : List (List String)) (p q : List String) (h : ¬p = q) :
    (l ++ [p]).count q = l.count q := by
  rw [List.count_append]
  simp [List.count_cons, h]

/-- `addFile` with a different path does not change a count. -/
theorem addFile_count_ne (t : List (List String)) (p q : List String) (h : ¬p = q) :
    (addFile t p).count q = t.count q := by
  unfold addFile
  split
  · rfl
  · exact count_append_single_ne t p q h

/-- `addFile` of an absent path makes its count exactly one. -/
theorem addFile_count_self (t : List (List String)) (p : List String) (h : t.count p = 0) :
    (addFile t p).count p = 1 := by
  have hmem : p ∉ t := List.count_eq_zero.mp h
  have hcon : t.contains p = false := by
    cases hc : t.contains p with
    | false => rfl
    | true => exact absurd (List.elem_iff.mp hc) hmem
  unfold addFile
  rw [hcon]
  simp [List.count_append, h, List.count_cons]

/-- The traversal loop never materialises the manager's own file. -/
theorem copyLoop_target_count (items : List SrcItem) :
    ∀ target copied, ((copyLoop items copied target).2.count managerPath) = target.count managerPath := by
  induction items with
  | nil => intro t c; simp [copyLoop]
  | cons it rest ih =>
    intro t c
    cases hm : it.parts == managerPath with
    | true => simp [copyLoop, hm, ih]
    | false =>
      cases hs : should_copy it.parts with
      | false => simp [copyLoop, hm, hs, ih]
      | true =>
        cases hk : it.kind with
        | dir => simp [copyLoop, hm, hs, hk, ih]
        | file =>
          cases hf : it.copyFails with
          | true => simp [copyLoop, hm, hs, hk, hf, ih]
          | false =>
            simp only [copyLoop, hm, hs, hk, hf]
            simp only [Bool.not_true, Bool.false_eq_true, if_false, if_true, ite_true, ite_false]
            rw [ih]
            exact addFile_count_ne t it.parts managerPath (by
              intro heq
              rw [heq] at hm
              simp at hm)

/-- `find?` skips a prefix in which nothing matches. -/
theorem find?_append_of_none {α : Type} (p : α → Bool) (l1 l2 : List α)
    (h : l1.find? p = none) : (l1 ++ l2).find? p = l2.find? p := by
  rw [List.find?_append, h, Option.none_or]

/-! ## Claim theorems -/

/-- C7: the file synchronizer never copies a file whose relative path
contains an excluded component or whose name matches a suffix exclusion
pattern, and (when the manager's own file exists and its explicit final
copy succeeds) `lifecycle_manager.py` appears exactly once in the
returned `copied_files` list and exactly once in the target directory,
for every traversal order. -/
theorem copy_excludes_and_manager_unique (cfg : CopyConfig)
    (hp : cfg.managerPresent = true) (hf : cfg.managerCopyFails = false) :
    (∀ p ∈ (copy_plugin_files_impl cfg).1.copied_files,
        hasExcludedPart p = false ∧ suffixExcluded p = false) ∧
    (copy_plugin_files_impl cfg).1.copied_files.count managerPath = 1 ∧
    (copy_plugin_files_impl cfg).2.count managerPath = 1 := by
  have hloop := copyLoop_copied_eq cfg.items [] []
  have htgt := copyLoop_target_count cfg.items [] []
  have hmgr_ok : should_copy managerPath = true := by decide
  refine ⟨?_, ?_, ?_⟩
  · intro p hmem
    simp only [copy_plugin_files_impl, hp, hf] at hmem
    simp only [if_true, ite_false, Bool.false_eq_true] at hmem
    rw [hloop] at hmem
    simp only [List.nil_append, List.mem_append, List.mem_singleton] at hmem
    have hsc : should_copy p = true := by
      rcases hmem with hmem | hmem
      · rcases List.mem_filterMap.mp hmem with ⟨it, _, hit⟩
        exact (copiedEntry_some it p hit).2
      · rw [hmem]; exact hmgr_ok
    unfold should_copy at hsc
    constructor
    · cases hx : hasExcludedPart p with
      | false => rfl
      | true => rw [hx] at hsc; simp at hsc
    · cases hx : suffixExcluded p with
      | false => rfl
      | true => rw [hx] at hsc; simp at hsc
  · simp only [copy_plugin_files_impl, hp, hf]
    simp only [if_true, ite_false, Bool.false_eq_true]
    rw [List.count_append, hloop]
    have hz : (cfg.items.filterMap copiedEntry).count managerPath = 0 := by
      apply List.count_eq_zero.mpr
      intro hmem
      rcases List.mem_filterMap.mp hmem with ⟨it, _, hit⟩
      exact (copiedEntry_some it managerPath hit).1 rfl
    simp only [List.nil_append, hz]
    decide
  · simp only [copy_plugin_files_impl, hp, hf]
    simp only [if_true, ite_false, Bool.false_eq_true]
    apply addFile_count_self
    rw [htgt]
    decide

/-- C7 witness: the concrete traversal `cfg0`. -/
theorem copy_excludes_and_manager_unique_witness :
    (copy_plugin_files_impl cfg0).1.copied_files.count managerPath = 1 :=
  (copy_excludes_and_manager_unique cfg0 rfl rfl).2.1

/-- C8: a raising per-file copy is skipped without aborting the
remaining copies — `copied_files` is exactly the per-item filter-map
over the whole traversal — and the returned success flag is true
whenever the synchronizer body completes, turning false (with an error
value) exactly when the synchronizer-level final copy raises. -/
theorem copy_per_file_failure_resilience (cfg : CopyConfig) :
    (copy_plugin_files_impl cfg).1.success = !(cfg.managerPresent && cfg.managerCopyFails) ∧
    (copy_plugin_files_impl cfg).1.copied_files =
      (if cfg.managerPresent && cfg.managerCopyFails then []
       else cfg.items.filterMap copiedEntry ++
         (if cfg.managerPresent then [managerPath] else [])) ∧
    (copy_plugin_files_impl cfg).1.error.isSome = (cfg.managerPresent && cfg.managerCopyFails) := by
  have hloop := copyLoop_copied_eq cfg.items [] []
  cases hp : cfg.managerPresent with
  | false =>
    simp only [copy_plugin_files_impl, hp, Bool.false_and]
    simp [hloop]
  | true =>
    cases hf : cfg.managerCopyFails with
    | false =>
      simp only [copy_plugin_files_impl, hp, hf, Bool.true_and]
      simp [hloop]
    | true =>
      simp only [copy_plugin_files_impl, hp, hf, Bool.true_and]
      simp [hloop]

/-- C5: for every plugin directory, the installation validator reports
valid exactly under the spec condition — both required files exist,
`package.json` parses with the `name` and `version` fields present, and
the bundle size is positive — so it is invalid whenever the bundle is
absent, the bundle is empty, the manifest is missing a required field or
the manifest fails to parse; being a total function into the structured
`ValidationResult` type, it returns rather than raises. -/
theorem validate_installation_valid_iff_spec (fs : PluginFS) :
    (validate_installation_impl fs).valid = validSpec fs := by
  cases hpk : findFile fs ("package.json") with
  | none =>
    simp [validate_installation_impl, validSpec, required_files, hpk]
  | some pk =>
    cases hb : findFile fs ("dist/remoteEntry.js") with
    | none =>
      simp [validate_installation_impl, validSpec, required_files, hpk, hb]
    | some b =>
      cases hk : pk.jsonKeys with
      | none => simp [validate_installation_impl, validSpec, required_files, hpk, hb, hk]
      | some keys =>
        by_cases hn : ("name") ∈ keys
        · by_cases hv : ("version") ∈ keys
          · rcases Nat.eq_zero_or_pos b.size with hsz | hsz
            · simp [validate_installation_impl, validSpec, required_files, hpk, hb, hk, hn, hv, hsz]
            · simp [validate_installation_impl, validSpec, required_files, hpk, hb, hk, hn, hv,
                hsz, hsz.ne']
          · simp [validate_installation_impl, validSpec, required_files, hpk, hb, hk, hn, hv]
        · simp [validate_installation_impl, validSpec, required_files, hpk, hb, hk, hn]

/-- C6: for every plugin directory, the health report is healthy exactly
when the bundle exists with positive byte size and `package.json` parses
as JSON, and missing or unparseable probed files show up as false / zero
report fields instead of failures; the embedding is a pure function of
the filesystem, so the operation mutates no file or database state. -/
theorem plugin_health_characterization (fs : PluginFS) :
    (get_plugin_health_impl fs).healthy = healthSpec fs ∧
    (findFile fs ("dist/remoteEntry.js") = none →
      (get_plugin_health_impl fs).details.bundle_exists = false ∧
      (get_plugin_health_impl fs).details.bundle_size = 0) ∧
    (findFile fs ("package.json") = none →
      (get_plugin_health_impl fs).details.package_json_valid = false) ∧
    (∀ pk, findFile fs ("package.json") = some pk → pk.jsonKeys = none →
      (get_plugin_health_impl fs).details.package_json_valid = false) ∧
    (fs.assetsDirPresent = false →
      (get_plugin_health_impl fs).details.assets_present = false) := by
  refine ⟨?_, ?_, ?_, ?_, ?_⟩
  · cases hb : findFile fs ("dist/remoteEntry.js") with
    | none => simp [get_plugin_health_impl, healthSpec, hb]
    | some b =>
      cases hpk : findFile fs ("package.json") with
      | none => simp [get_plugin_health_impl, healthSpec, hb, hpk]
      | some pk => simp [get_plugin_health_impl, healthSpec, hb, hpk, Bool.and_comm]
  · intro hb; simp [get_plugin_health_impl, hb]
  · intro hpk; simp [get_plugin_health_impl, hpk]
  · intro pk hpk hk; simp [get_plugin_health_impl, hpk, hk]
  · intro ha; simp [get_plugin_health_impl, ha]

/-- C6 witness: the empty plugin directory. -/
theorem plugin_health_characterization_witness :
    (get_plugin_health_impl fs0).details.bundle_exists = false :=
  ((plugin_health_characterization fs0).2.1 rfl).1

/-- C1 (amended): `install_for_user` rejects a user already in the
manager instance's `active_users` set, returning failure and leaving the
manager and database untouched; but `install_plugin` constructs a fresh
manager whose `active_users` set is empty, so (absent database faults)
it always succeeds and appends a further plugin row, regardless of any
record already present for the user — the at-most-one invariant is kept
only across calls on one manager instance, not across `install_plugin`
calls. -/
theorem install_guard_per_instance :
    (∀ (mgr : Manager) (user : String) (db : DBState),
        mgr.active_users.contains user = true →
          (install_for_user mgr user db).1.success = false ∧
          (install_for_user mgr user db).1.error = some ("Plugin already installed for user") ∧
          (install_for_user mgr user db).2.2 = db) ∧
    (∀ (user : String) (db : DBState), db.faults = [] →
        (install_plugin user db).1.success = true ∧
        (install_plugin user db).2.current.plugins
          = db.current.plugins ++ [mkPluginRow user db.nextId]) := by
  constructor
  · intro mgr user db h
    have hmem : user ∈ mgr.active_users := by simpa using h
    simp [install_for_user, hmem]
  · intro user db hf
    simp [install_plugin, install_for_user, newManager, perform_user_installation,
      create_database_records, execInsertPlugin, insertModulesLoop, execInsertModule,
      execCommit, module_data, mkPluginRow, hf]

/-- C1 counterexample: starting from an empty store, `install_plugin`
for user `u1` succeeds and commits one record, after which the plugin is
installed for `u1`; yet a second `install_plugin` call for `u1` again
returns success (not failure) and commits a second plugin record for the
same (user, slug) pair. -/
theorem install_second_call_counterexample :
    ((install_plugin ("u1") db0).2.committed.plugins.filter
        (fun p => p.user_id == ("u1") && p.plugin_slug == plugin_data.plugin_slug)).length = 1 ∧
    (install_plugin ("u1") (install_plugin ("u1") db0).2).1.success = true ∧
    ((install_plugin ("u1") (install_plugin ("u1") db0).2).2.committed.plugins.filter
        (fun p => p.user_id == ("u1") && p.plugin_slug == plugin_data.plugin_slug)).length = 2 := by
  decide

/-- C1 witness: the guard fires for a concrete already-active user, and
a fault-free `install_plugin` run succeeds. -/
theorem install_guard_per_instance_witness :
    (install_for_user mgrU1 ("u1") db0).1.success = false ∧
    (install_plugin ("u2") db0).1.success = true :=
  ⟨(install_guard_per_instance.1 mgrU1 ("u1") db0 (by decide)).1,
   (install_guard_per_instance.2 ("u2") db0 rfl).1⟩

/-- C2: uninstalling for a user with no installation fails and performs
no mutating database statement: when the user is not in `active_users`
the call returns immediately with the session untouched, and when no
plugin row exists for the (user, slug) pair the call fails with both
tables unchanged, the trace gaining at most the two read-only lookup
queries. -/
theorem uninstall_not_installed_no_mutation :
    (∀ (mgr : Manager) (user : String) (db : DBState),
        mgr.active_users.contains user = false →
          (uninstall_for_user mgr user db).1.success = false ∧
          (uninstall_for_user mgr user db).2.2 = db) ∧
    (∀ (mgr : Manager) (user : String) (db : DBState),
        findPluginRow db.current user = none →
          (uninstall_for_user mgr user db).1.success = false ∧
          (uninstall_for_user mgr user db).2.2.current = db.current ∧
          (uninstall_for_user mgr user db).2.2.committed = db.committed ∧
          (∀ e ∈ (uninstall_for_user mgr user db).2.2.trace,
            e ∈ db.trace ∨ e = DBEvent.selectCount ∨ e = DBEvent.selectPlugin)) := by
  constructor
  · intro mgr user db h
    have hmem : user ∉ mgr.active_users := by simpa using h
    simp [uninstall_for_user, hmem]
  · intro mgr user db h
    unfold findPluginRow at h
    by_cases hc : user ∈ mgr.active_users
    case neg =>
      have hr : uninstall_for_user mgr user db =
          ({ success := false, plugin_id := none, deleted_modules := [],
             error := some ("Plugin not installed for user") }, mgr, db) := by
        simp [uninstall_for_user, hc]
      rw [hr]
      refine ⟨rfl, rfl, rfl, ?_⟩
      intro e he
      exact Or.inl he
    case pos =>
      cases h1 : db.faults.head?.getD false with
      | true =>
        refine ⟨?_, ?_, ?_, ?_⟩ <;>
          simp [uninstall_for_user, perform_user_uninstallation, check_existing_plugin,
            execCountPlugins, execStep, h1, hc] <;>
          tauto
      | false =>
        cases h2 : (db.faults[1]?).getD false with
        | true =>
          refine ⟨?_, ?_, ?_, ?_⟩ <;>
            simp [uninstall_for_user, perform_user_uninstallation, check_existing_plugin,
              execCountPlugins, execSelectPlugin, execStep, h1, h2, hc] <;>
            tauto
        | false =>
          refine ⟨?_, ?_, ?_, ?_⟩ <;>
            simp [uninstall_for_user, perform_user_uninstallation, check_existing_plugin,
              execCountPlugins, execSelectPlugin, execStep, h1, h2, hc, h] <;>
            tauto

/-- C2 witness: concrete not-installed user on the empty store, through
both rejection paths. -/
theorem uninstall_not_installed_no_mutation_witness :
    (uninstall_for_user newManager ("u1") db0).1.success = false ∧
    (uninstall_for_user mgrU1 ("u1") db0).1.success = false :=
  ⟨(uninstall_not_installed_no_mutation.1 newManager ("u1") db0 (by decide)).1,
   (uninstall_not_installed_no_mutation.2 mgrU1 ("u1") db0 (by decide)).1⟩

/-- C3: `_create_database_records` is transactional — starting from a
clean session (current view = committed snapshot), on success it commits
exactly one new plugin row plus one module row per descriptor and
returns the new plugin id with the created module ids/names, and it
succeeds exactly when none of its `1 + |module_data| + 1` statements
faults; on any fault it rolls back and reports failure, leaving both
tables (committed and current view) unchanged. -/
theorem create_database_records_transaction (user : String) (db : DBState)
    (hcc : db.current = db.committed) :
    ((create_database_records user db).1.success =
        !((db.faults.take (2 + module_data.length)).any (fun b => b))) ∧
    ((create_database_records user db).1.success = true →
      ((create_database_records user db).2.committed.plugins
          = db.committed.plugins ++ [mkPluginRow user db.nextId] ∧
       (create_database_records user db).2.committed.modules
          = db.committed.modules ++ mkModuleRows db.nextId ∧
       (create_database_records user db).2.current = (create_database_records user db).2.committed ∧
       (create_database_records user db).1.plugin_id = some db.nextId ∧
       (create_database_records user db).1.modules_created = mkModulesCreated db.nextId)) ∧
    ((create_database_records user db).1.success = false →
      ((create_database_records user db).2.committed = db.committed ∧
       (create_database_records user db).2.current = db.committed ∧
       (create_database_records user db).1.error.isSome = true ∧
       (create_database_records user db).1.plugin_id = none)) := by
  rcases hfl : db.faults with _ | ⟨f1, fl1⟩
  · simp [create_database_records, execInsertPlugin, insertModulesLoop, execInsertModule,
      execCommit, doRollback, module_data, mkPluginRow, mkModuleRows, mkModuleRowsAux,
      mkModulesCreated, mkModulesCreatedAux, hfl, hcc]
  · cases f1 with
    | true =>
      simp [create_database_records, execInsertPlugin, insertModulesLoop, execInsertModule,
        execCommit, doRollback, module_data, mkPluginRow, mkModuleRows, mkModuleRowsAux,
        mkModulesCreated, mkModulesCreatedAux, hfl, hcc]
    | false =>
      rcases fl1 with _ | ⟨f2, fl2⟩
      · simp [create_database_records, execInsertPlugin, insertModulesLoop, execInsertModule,
          execCommit, doRollback, module_data, mkPluginRow, mkModuleRows, mkModuleRowsAux,
          mkModulesCreated, mkModulesCreatedAux, hfl, hcc]
      · cases f2 with
        | true =>
          simp [create_database_records, execInsertPlugin, insertModulesLoop, execInsertModule,
            execCommit, doRollback, module_data, mkPluginRow, mkModuleRows, mkModuleRowsAux,
            mkModulesCreated, mkModulesCreatedAux, hfl, hcc]
        | false =>
          rcases fl2 with _ | ⟨f3, fl3⟩
          · simp [create_database_records, execInsertPlugin, insertModulesLoop, execInsertModule,
              execCommit, doRollback, module_data, mkPluginRow, mkModuleRows, mkModuleRowsAux,
              mkModulesCreated, mkModulesCreatedAux, hfl, hcc]
          · cases f3 with
            | true =>
              simp [create_database_records, execInsertPlugin, insertModulesLoop, execInsertModule,
                execCommit, doRollback, module_data, mkPluginRow, mkModuleRows, mkModuleRowsAux,
                mkModulesCreated, mkModulesCreatedAux, hfl, hcc]
            | false =>
              simp [create_database_records, execInsertPlugin, insertModulesLoop, execInsertModule,
                execCommit, doRollback, module_data, mkPluginRow, mkModuleRows, mkModuleRowsAux,
                mkModulesCreated, mkModulesCreatedAux, hfl, hcc]

/-- C3 witness: a fault-free run on the empty session commits the plugin
row. -/
theorem create_database_records_transaction_witness :
    (create_database_records ("u1") db0).1.success = true ∧
    (create_database_records ("u1") db0).2.committed.plugins = [mkPluginRow ("u1") 1] := by
  have h := create_database_records_transaction ("u1") db0 rfl
  have hs : (create_database_records ("u1") db0).1.success = true := h.1.trans (by decide)
  refine ⟨hs, ?_⟩
  have := (h.2.1 hs).1
  simpa using this

/-- C4: in every execution (every fault schedule), the record store
executes plugin-row insertion before any module-row insertion, and
module-row deletion before the plugin-row deletion; the reverse order
never appears in the statement trace. -/
theorem record_store_statement_order (user : String) (pid : Nat) (db1 db2 : DBState)
    (h1 : db1.trace = []) (h2 : db2.trace = []) :
    occursBeforeFirst (create_database_records user db1).2.trace
        DBEvent.insertModule DBEvent.insertPlugin = false ∧
    occursBeforeFirst (delete_database_records user pid db2).2.trace
        DBEvent.deletePlugin DBEvent.deleteModules = false := by
  constructor
  · rcases hfl : db1.faults with _ | ⟨f1, fl1⟩
    · simp [create_database_records, execInsertPlugin, insertModulesLoop, execInsertModule,
        execCommit, doRollback, module_data, hfl, h1] <;> decide
    · cases f1 <;> rcases fl1 with _ | ⟨f2, fl2⟩ <;>
        first
        | (simp [create_database_records, execInsertPlugin, insertModulesLoop, execInsertModule,
            execCommit, doRollback, module_data, hfl, h1] <;> decide)
        | (cases f2 <;> rcases fl2 with _ | ⟨f3, fl3⟩ <;>
            first
            | (simp [create_database_records, execInsertPlugin, insertModulesLoop,
                execInsertModule, execCommit, doRollback, module_data, hfl, h1] <;> decide)
            | (cases f3 <;>
                simp [create_database_records, execInsertPlugin, insertModulesLoop,
                  execInsertModule, execCommit, doRollback, module_data, hfl, h1] <;> decide))
  · rcases hfl : db2.faults with _ | ⟨f1, fl1⟩
    · simp [delete_database_records, execSelectModules, execDeleteModules, execDeletePlugin,
        execCommit, execStep, doRollback, hfl, h2] <;> decide
    · cases f1 <;> rcases fl1 with _ | ⟨f2, fl2⟩ <;>
        first
        | (simp [delete_database_records, execSelectModules, execDeleteModules, execDeletePlugin,
            execCommit, execStep, doRollback, hfl, h2] <;> decide)
        | (cases f2 <;> rcases fl2 with _ | ⟨f3, fl3⟩ <;>
            first
            | (simp [delete_database_records, execSelectModules, execDeleteModules,
                execDeletePlugin, execCommit, execStep, doRollback, hfl, h2] <;> decide)
            | (cases f3 <;> rcases fl3 with _ | ⟨f4, fl4⟩ <;>
                first
                | (simp [delete_database_records, execSelectModules, execDeleteModules,
                    execDeletePlugin, execCommit, execStep, doRollback, hfl, h2] <;> decide)
                | (cases f4 <;>
                    simp [delete_database_records, execSelectModules, execDeleteModules,
                      execDeletePlugin, execCommit, execStep, doRollback, hfl, h2] <;> decide)))

/-- C4 witness: the empty session. -/
theorem record_store_statement_order_witness :
    occursBeforeFirst (create_database_records ("u1") db0).2.trace
        DBEvent.insertModule DBEvent.insertPlugin = false :=
  (record_store_statement_order ("u1") 1 db0 db0 rfl rfl).1

/-- C9: for a user with no prior installation, a (fault-free, hence
successful) install followed by the status lookup reports existence true
and returns the same plugin identifier that the install result carried. -/
theorem install_then_lookup_same_id (user : String) (db : DBState)
    (hf : db.faults = []) (hnone : findPluginRow db.current user = none) :
    (install_plugin user db).1.success = true ∧
    (get_plugin_status user (install_plugin user db).2).1.exists_ = true ∧
    (get_plugin_status user (install_plugin user db).2).1.plugin_id
      = (install_plugin user db).1.plugin_id := by
  unfold findPluginRow at hnone
  have happ : ∀ l2, List.find?
        (fun r => r.user_id == user && r.plugin_slug == plugin_data.plugin_slug)
        (db.current.plugins ++ l2)
      = List.find? (fun r => r.user_id == user && r.plugin_slug == plugin_data.plugin_slug) l2 :=
    fun l2 => find?_append_of_none _ _ l2 hnone
  simp [install_plugin, install_for_user, newManager, perform_user_installation,
    create_database_records, execInsertPlugin, insertModulesLoop, execInsertModule,
    execCommit, get_plugin_status, check_existing_plugin, execCountPlugins, execSelectPlugin,
    execStep, module_data, hf, happ]

/-- C9 witness: user `u1` on the empty store. -/
theorem install_then_lookup_same_id_witness :
    (get_plugin_status ("u1") (install_plugin ("u1") db0).2).1.exists_ = true :=
  (install_then_lookup_same_id ("u1") db0 rfl (by decide)).2.1

/-- C10: when a query inside `_check_existing_plugin` raises, the
function returns exists false together with an error field instead of
propagating, so a database failure is reported like "not installed";
`uninstall_for_user` (for a user its manager holds active) then fails
with `Plugin not found for user` and mutates nothing. -/
theorem check_plugin_error_as_not_found (mgr : Manager) (user : String) (db : DBState)
    (hm : user ∈ mgr.active_users) (hf : faultInCheck db.faults = true) :
    (check_existing_plugin user db).1.exists_ = false ∧
    (check_existing_plugin user db).1.error.isSome = true ∧
    (uninstall_for_user mgr user db).1.success = false ∧
    (uninstall_for_user mgr user db).1.error = some ("Plugin not found for user") ∧
    (uninstall_for_user mgr user db).2.2.current = db.current ∧
    (uninstall_for_user mgr user db).2.2.committed = db.committed := by
  rcases hfl : db.faults with _ | ⟨f1, fl1⟩
  · rw [hfl] at hf
    simp [faultInCheck] at hf
  · cases f1 with
    | true =>
      simp [check_existing_plugin, execCountPlugins, execSelectPlugin, execStep,
        uninstall_for_user, perform_user_uninstallation, hfl, hm]
    | false =>
      rcases fl1 with _ | ⟨f2, fl2⟩
      · rw [hfl] at hf
        simp [faultInCheck] at hf
      · cases f2 with
        | true =>
          simp [check_existing_plugin, execCountPlugins, execSelectPlugin, execStep,
            uninstall_for_user, perform_user_uninstallation, hfl, hm]
        | false =>
          rw [hfl] at hf
          simp [faultInCheck] at hf

/-- C10 witness: a session whose next statement raises, with user `u1`
active on its manager. -/
theorem check_plugin_error_as_not_found_witness :
    (check_existing_plugin ("u1") dbFault1).1.exists_ = false ∧
    (uninstall_for_user mgrU1 ("u1") dbFault1).1.error = some ("Plugin not found for user") :=
  ⟨(check_plugin_error_as_not_found mgrU1 ("u1") dbFault1 (by decide) (by decide)).1,
   (check_plugin_error_as_not_found mgrU1 ("u1") dbFault1 (by decide) (by decide)).2.2.2.1⟩
